import Mathlib

/-!
Verification of the PDF signing interface (frontedsign).

The definitions below are a shallow embedding of the annotation placement
engine in `PDFSigningInterface` (the canonical variant with aspect-locked
signature resize and PDF-ready gating).  Coordinates are modelled as
rationals; React state updates become explicit state passing; network
calls become an emitted list of requests.
-/

namespace FrontedSign

/-- Document-space annotation geometry uses rational coordinates. -/
abbrev Coord := ℚ

/-- Placement mode, the tri-state flag `mode ∈ {none, text, signature}`. -/
inductive Mode where
  | none
  | text
  | signature
deriving Repr, DecidableEq

/-- The `TextField` interface: id, page_number, x/y coordinate, width,
height, font_size, text_content. -/
structure TextField where
  id : String
  page_number : Nat
  x_coordinate : Coord
  y_coordinate : Coord
  width : Coord
  height : Coord
  font_size : Coord
  text_content : String
deriving Repr, DecidableEq

/-- The `Signature` interface: id, page_number, x/y coordinate, width,
height, signature_image_path, and the transient `imageUrl`. -/
structure Signature where
  id : String
  page_number : Nat
  x_coordinate : Coord
  y_coordinate : Coord
  width : Coord
  height : Coord
  signature_image_path : String
  imageUrl : Option String
deriving Repr, DecidableEq

/-- The React component state of `PDFSigningInterface` that the claims
touch, together with the read-only prop (constant for a session). -/
structure ComponentState where
  isReadOnly : Bool
  numPages : Nat
  pageNumber : Nat
  scale : Coord
  mode : Mode
  textFields : List TextField
  signatures : List Signature
  activeField : Option String
  fullName : String
  signatureImage : Option String
  pdfReady : Bool
deriving Repr, DecidableEq

def DEFAULT_TEXT_WIDTH : Coord := 200
def DEFAULT_TEXT_HEIGHT : Coord := 30
def DEFAULT_TEXT_FONT_SIZE : Coord := 14
def DEFAULT_SIGNATURE_WIDTH : Coord := 150
def DEFAULT_SIGNATURE_HEIGHT : Coord := 60
def MAX_SIGNATURE_WIDTH : Coord := 250
def MAX_SIGNATURE_HEIGHT : Coord := 100
def MIN_SIGNATURE_WIDTH : Coord := 80
def MIN_SIGNATURE_HEIGHT : Coord := 30

/-- Viewport coordinate of a stored document-space coordinate, as in the
`Draggable` `position` prop: `x_coordinate * scale`. -/
def toViewport (p scale : Coord) : Coord := p * scale

/-- Document-space coordinate of a viewport coordinate, as in
`handlePageClick`: `(e.clientX - rect.left) / scale`. -/
def toDocument (v scale : Coord) : Coord := v / scale

/-- C1: Coordinate round-trip identity.  For every document-space point
`p`, viewport point `v` and `scale > 0`, `toDocument (toViewport p scale)
scale = p` and `toViewport (toDocument v scale) scale = v`: a page click
stored as `v / scale` renders back at `(v / scale) * scale = v`. -/
theorem C1_coordinate_roundtrip (p v scale : Coord) (hs : 0 < scale) :
    toDocument (toViewport p scale) scale = p ∧
    toViewport (toDocument v scale) scale = v := by
  have hs' : scale ≠ 0 := ne_of_gt hs
  constructor
  · simp [toDocument, toViewport, mul_div_assoc, div_self hs']
  · simp [toDocument, toViewport, div_mul_eq_mul_div, mul_div_assoc, div_self hs']

/-- Witness for C1 at `p = 7`, `v = 3`, `scale = 2`. -/
theorem C1_coordinate_roundtrip_witness :
    (0 : Coord) < 2 ∧
    (toDocument (toViewport 7 2) 2 = 7 ∧ toViewport (toDocument 3 2) 2 = 3) :=
  ⟨by norm_num, C1_coordinate_roundtrip 7 3 2 (by norm_num)⟩

/-! ### Annotation model operations: update and delete -/

/-- A `Partial<TextField>` update set: `some v` for a listed field,
`none` for an omitted one. -/
structure TextFieldUpdates where
  id : Option String
  page_number : Option Nat
  x_coordinate : Option Coord
  y_coordinate : Option Coord
  width : Option Coord
  height : Option Coord
  font_size : Option Coord
  text_content : Option String
deriving Repr, DecidableEq

/-- The spread `{ ...field, ...updates }`: every listed field overrides,
every omitted field is kept. -/
def TextFieldUpdates.apply (u : TextFieldUpdates) (f : TextField) : TextField :=
  { id := u.id.getD f.id
    page_number := u.page_number.getD f.page_number
    x_coordinate := u.x_coordinate.getD f.x_coordinate
    y_coordinate := u.y_coordinate.getD f.y_coordinate
    width := u.width.getD f.width
    height := u.height.getD f.height
    font_size := u.font_size.getD f.font_size
    text_content := u.text_content.getD f.text_content }

/-- A `Partial<Signature>` update set. -/
structure SignatureUpdates where
  id : Option String
  page_number : Option Nat
  x_coordinate : Option Coord
  y_coordinate : Option Coord
  width : Option Coord
  height : Option Coord
  signature_image_path : Option String
  imageUrl : Option (Option String)
deriving Repr, DecidableEq

/-- The spread `{ ...sig, ...updates }` for signatures. -/
def SignatureUpdates.apply (u : SignatureUpdates) (s : Signature) : Signature :=
  { id := u.id.getD s.id
    page_number := u.page_number.getD s.page_number
    x_coordinate := u.x_coordinate.getD s.x_coordinate
    y_coordinate := u.y_coordinate.getD s.y_coordinate
    width := u.width.getD s.width
    height := u.height.getD s.height
    signature_image_path := u.signature_image_path.getD s.signature_image_path
    imageUrl := u.imageUrl.getD s.imageUrl }

/-- `updateTextField`: map over `textFields`, merging `updates` into the
field whose id matches and keeping every other field as is. -/
def updateTextField (st : ComponentState) (id : String) (u : TextFieldUpdates) :
    ComponentState :=
  { st with textFields :=
      st.textFields.map (fun f => if f.id = id then u.apply f else f) }

/-- `updateSignature`: map over `signatures`, merging `updates` into the
signature whose id matches and keeping every other one as is. -/
def updateSignature (st : ComponentState) (id : String) (u : SignatureUpdates) :
    ComponentState :=
  { st with signatures :=
      st.signatures.map (fun s => if s.id = id then u.apply s else s) }

/-- Which collection a `deleteField` call targets. -/
inductive FieldType where
  | text
  | signature
deriving Repr, DecidableEq

/-- `deleteField`: filter the matching id out of its own collection. -/
def deleteField (st : ComponentState) (id : String) (t : FieldType) :
    ComponentState :=
  match t with
  | FieldType.text =>
      { st with textFields := st.textFields.filter (fun f => f.id ≠ id) }
  | FieldType.signature =>
      { st with signatures := st.signatures.filter (fun s => s.id ≠ id) }

/-! ### Draft serialization and the network layer -/

/-- A serialized text-field record as built in `handleSaveDraft` and
`handleSubmit`: exactly page_number, x/y coordinate, width, height,
font_size, text_content — no `id`. -/
structure DraftTextField where
  page_number : Nat
  x_coordinate : Coord
  y_coordinate : Coord
  width : Coord
  height : Coord
  font_size : Coord
  text_content : String
deriving Repr, DecidableEq

/-- A serialized signature record: exactly page_number, x/y coordinate,
width, height, signature_image_path — no `id`, no `imageUrl`. -/
structure DraftSignature where
  page_number : Nat
  x_coordinate : Coord
  y_coordinate : Coord
  width : Coord
  height : Coord
  signature_image_path : String
deriving Repr, DecidableEq

/-- The request body `{ textFields: [...], signatures: [...] }`. -/
structure DraftBody where
  textFields : List DraftTextField
  signatures : List DraftSignature
deriving Repr, DecidableEq

/-- The per-field projection in `handleSaveDraft`'s `textFields.map`. -/
def serializeTextField (tf : TextField) : DraftTextField :=
  { page_number := tf.page_number
    x_coordinate := tf.x_coordinate
    y_coordinate := tf.y_coordinate
    width := tf.width
    height := tf.height
    font_size := tf.font_size
    text_content := tf.text_content }

/-- The per-signature projection in `handleSaveDraft`'s `signatures.map`. -/
def serializeSignature (s : Signature) : DraftSignature :=
  { page_number := s.page_number
    x_coordinate := s.x_coordinate
    y_coordinate := s.y_coordinate
    width := s.width
    height := s.height
    signature_image_path := s.signature_image_path }

/-- The full body sent by `handleSaveDraft` / `handleSubmit`: the whole
current annotation model, serialized record by record. -/
def draftBody (st : ComponentState) : DraftBody :=
  { textFields := st.textFields.map serializeTextField
    signatures := st.signatures.map serializeSignature }

/-- A network request issued by the component. -/
inductive Request where
  | saveDraftReq (documentId : Nat) (body : DraftBody)
  | submitReq (documentId : Nat) (body : DraftBody)
  | uploadReq
deriving Repr, DecidableEq

/-- `handleSaveDraft`: POST the serialized body to
`/signing/{documentId}/draft`; the annotation model is not changed. -/
def handleSaveDraft (st : ComponentState) (documentId : Nat) :
    ComponentState × List Request :=
  (st, [Request.saveDraftReq documentId (draftBody st)])

/-- `handleSubmit`: after the explicit confirmation dialog, POST the
serialized body to `/signing/{documentId}/submit`; without confirmation
nothing happens. -/
def handleSubmit (st : ComponentState) (documentId : Nat) (confirmed : Bool) :
    ComponentState × List Request :=
  if confirmed then (st, [Request.submitReq documentId (draftBody st)])
  else (st, [])

/-- The remote draft store: a POST overwrites the stored draft with the
request body. -/
def storeDraft (body : DraftBody) : DraftBody := body

/-! ### Read-only gated user actions

`Draggable` and `Resizable` carry `disabled={isReadOnly}`, the delete
button is rendered only when the field is active and not read-only, and
the save / submit buttons are rendered only when not read-only; each
user-reachable action therefore starts with the corresponding guard. -/

/-- Drag stop on a text field: store `data.x / scale`, `data.y / scale`. -/
def dragStopTextField (st : ComponentState) (id : String) (dataX dataY : Coord) :
    ComponentState :=
  if st.isReadOnly then st
  else updateTextField st id
    ⟨none, none, some (dataX / st.scale), some (dataY / st.scale),
      none, none, none, none⟩

/-- Drag stop on a signature: store `data.x / scale`, `data.y / scale`. -/
def dragStopSignature (st : ComponentState) (id : String) (dataX dataY : Coord) :
    ComponentState :=
  if st.isReadOnly then st
  else updateSignature st id
    ⟨none, none, some (dataX / st.scale), some (dataY / st.scale),
      none, none, none, none⟩

/-- Text-field resize: width/height are the handle's reported viewport
size divided by scale. -/
def resizeTextField (st : ComponentState) (id : String) (sizeW sizeH : Coord) :
    ComponentState :=
  if st.isReadOnly then st
  else updateTextField st id
    ⟨none, none, none, none, some (sizeW / st.scale), some (sizeH / st.scale),
      none, none⟩

/-- The aspect-locked signature `onResize` body: the dimension with the
larger absolute change since the last known size is taken as given and
the other is recomputed from the previous aspect ratio. -/
def signatureResize (sig : Signature) (scale sizeW sizeH : Coord) : Coord × Coord :=
  let aspectRatio := sig.width / sig.height
  let newWidth := sizeW / scale
  let newHeight := sizeH / scale
  let widthChange := |newWidth - sig.width|
  let heightChange := |newHeight - sig.height|
  if heightChange < widthChange then (newWidth, newWidth / aspectRatio)
  else (newHeight * aspectRatio, newHeight)

/-- Signature resize as reachable from the UI: look the signature up,
apply the aspect-locked computation, and write both dimensions back. -/
def resizeSignature (st : ComponentState) (id : String) (sizeW sizeH : Coord) :
    ComponentState :=
  if st.isReadOnly then st
  else
    match st.signatures.find? (fun s => s.id = id) with
    | none => st
    | some sig =>
        let dims := signatureResize sig st.scale sizeW sizeH
        updateSignature st id
          ⟨none, none, none, none, some dims.1, some dims.2, none, none⟩

/-- Delete as reachable from the UI: the delete button exists only on the
active annotation and only when not read-only. -/
def deleteAction (st : ComponentState) (id : String) (t : FieldType) :
    ComponentState :=
  if st.isReadOnly then st
  else if st.activeField = some id then deleteField st id t
  else st

/-- Draft save as reachable from the UI: the button is rendered only when
not read-only. -/
def saveDraftAction (st : ComponentState) (documentId : Nat) :
    ComponentState × List Request :=
  if st.isReadOnly then (st, []) else handleSaveDraft st documentId

/-- Submit as reachable from the UI: the button is rendered only when not
read-only. -/
def submitAction (st : ComponentState) (documentId : Nat) (confirmed : Bool) :
    ComponentState × List Request :=
  if st.isReadOnly then (st, []) else handleSubmit st documentId confirmed

/-! ### Placement controller -/

/-- `addTextField`: append a TextField at the document-space click point
with the default size `(200, 30)`, font size `14` and initial content
`fullName || ''` (which is `fullName` itself, the empty string included);
select it and reset the mode to `none`. -/
def addTextField (st : ComponentState) (pageNum : Nat) (x y : Coord)
    (newId : String) : ComponentState :=
  let newField : TextField :=
    { id := newId
      page_number := pageNum
      x_coordinate := x
      y_coordinate := y
      width := DEFAULT_TEXT_WIDTH
      height := DEFAULT_TEXT_HEIGHT
      font_size := DEFAULT_TEXT_FONT_SIZE
      text_content := st.fullName }
  { st with textFields := st.textFields ++ [newField]
            activeField := some newId
            mode := Mode.none }

/-- The canvas content test of `addSignature`, starting at byte index
`i`: some byte at an index `≡ 3 [MOD 4]` (an alpha channel entry) is
non-zero. -/
def alphaContent : Nat → List Nat → Bool
  | _, [] => false
  | i, p :: rest => (i % 4 == 3 && decide (0 < p)) || alphaContent (i + 1) rest

/-- `imageData.data.some((pixel, index) => index % 4 === 3 && pixel > 0)`. -/
def canvasHasContent (data : List Nat) : Bool := alphaContent 0 data

/-- `getImageDimensions`: from the artifact's intrinsic pixel size,
clamp width to the maximum, then height to the maximum, then width to
the minimum, then height to the minimum, each time recomputing the other
dimension from the intrinsic aspect ratio. -/
def autoSize (imgW imgH : Coord) : Coord × Coord :=
  let aspectRatio := imgW / imgH
  let p1 :=
    if MAX_SIGNATURE_WIDTH < imgW then
      (MAX_SIGNATURE_WIDTH, MAX_SIGNATURE_WIDTH / aspectRatio)
    else (imgW, imgH)
  let p2 :=
    if MAX_SIGNATURE_HEIGHT < p1.2 then
      (MAX_SIGNATURE_HEIGHT * aspectRatio, MAX_SIGNATURE_HEIGHT)
    else p1
  let p3 :=
    if p2.1 < MIN_SIGNATURE_WIDTH then
      (MIN_SIGNATURE_WIDTH, MIN_SIGNATURE_WIDTH / aspectRatio)
    else p2
  let p4 :=
    if p3.2 < MIN_SIGNATURE_HEIGHT then
      (MIN_SIGNATURE_HEIGHT * aspectRatio, MIN_SIGNATURE_HEIGHT)
    else p3
  p4

/-- Failure modes of `addSignature`: no prepared artifact (the alert
"Please create or upload a signature first"), or the canvas upload
request failing. -/
inductive SigError where
  | NoSignatureArtifact
  | UploadFailed
deriving Repr, DecidableEq

/-- The environment of one `addSignature` call: the drawing canvas's RGBA
bytes, the asset store's answer to a canvas upload, the resolved object
URL for the artifact, and the artifact's intrinsic pixel dimensions
(`none` when `getImageDimensions` rejects). -/
structure SigEnv where
  canvasData : List Nat
  uploadResult : Option String
  resolvedUrl : String
  imageDims : Option (Coord × Coord)
deriving Repr, DecidableEq

/-- The success tail of `addSignature`: size the new signature from the
artifact's intrinsic dimensions (defaults `(150, 60)` when they cannot be
read), append it, reset the mode to `none` and select it. -/
def placeSignature (st : ComponentState) (env : SigEnv) (imagePath : String)
    (pageNum : Nat) (x y : Coord) (newId : String) : ComponentState :=
  let dims :=
    match env.imageDims with
    | some wh => autoSize wh.1 wh.2
    | none => (DEFAULT_SIGNATURE_WIDTH, DEFAULT_SIGNATURE_HEIGHT)
  let newSignature : Signature :=
    { id := newId
      page_number := pageNum
      x_coordinate := x
      y_coordinate := y
      width := dims.1
      height := dims.2
      signature_image_path := imagePath
      imageUrl := some env.resolvedUrl }
  { st with signatures := st.signatures ++ [newSignature]
            mode := Mode.none
            activeField := some newId }

/-- `addSignature`: prefer the uploaded artifact; otherwise rasterize and
upload the drawn canvas when it has content; with neither, fail with
`NoSignatureArtifact` leaving the state untouched (in particular the mode
is not reset). -/
def addSignature (st : ComponentState) (env : SigEnv) (pageNum : Nat)
    (x y : Coord) (newId : String) : Except SigError ComponentState :=
  match st.signatureImage with
  | some path => Except.ok (placeSignature st env path pageNum x y newId)
  | none =>
      if canvasHasContent env.canvasData then
        match env.uploadResult with
        | some path => Except.ok (placeSignature st env path pageNum x y newId)
        | none => Except.error SigError.UploadFailed
      else Except.error SigError.NoSignatureArtifact

/-- `handlePageClick`: ignore the click when read-only, in mode `none`,
or before the PDF is ready; otherwise convert the click to document space
and dispatch on the mode.  The returned state is the component state
after the click; the second component reports a placement failure. -/
def handlePageClick (st : ComponentState) (env : SigEnv) (pageNum : Nat)
    (vx vy : Coord) (newId : String) : ComponentState × Option SigError :=
  if st.isReadOnly ∨ st.mode = Mode.none ∨ st.pdfReady = false then (st, none)
  else
    let x := vx / st.scale
    let y := vy / st.scale
    match st.mode with
    | Mode.none => (st, none)
    | Mode.text => (addTextField st pageNum x y newId, none)
    | Mode.signature =>
        match addSignature st env pageNum x y newId with
        | Except.ok st2 => (st2, none)
        | Except.error e => (st, some e)

/-- The text input `onChange` handler.  Both `updateTextField` calls
compute their array from the same closure-captured `textFields`
snapshot, and both pass plain values to `setTextFields`, so React
commits them in order and the second (the width update, with
`newWidth = max(DEFAULT_TEXT_WIDTH, newText.length * 8)` computed from
the DOM value) wholly overwrites the first (the content update): the
committed state carries the new width but the unchanged
`text_content`. -/
def onTextContentChange (st : ComponentState) (id : String) (newText : String) :
    ComponentState :=
  let queued1 := st.textFields.map (fun f => if f.id = id then
    TextFieldUpdates.apply
      ⟨none, none, none, none, none, none, none, some newText⟩ f
    else f)
  let newWidth : Coord := max DEFAULT_TEXT_WIDTH (newText.length * 8)
  let queued2 := st.textFields.map (fun f => if f.id = id then
    TextFieldUpdates.apply
      ⟨none, none, none, none, some newWidth, none, none, none⟩ f
    else f)
  let committed1 := { st with textFields := queued1 }
  let committed2 := { committed1 with textFields := queued2 }
  committed2

/-! ### Signature file upload validation -/

/-- Failure modes of `handleSignatureUpload`. -/
inductive UploadError where
  | FileTooLarge
  | InvalidImageType
  | ImageLoadFailed
  | ImageTooLarge
  | ServerUploadFailed
deriving Repr, DecidableEq

/-- A file picked in the upload input: byte size, MIME type, whether the
browser can decode it as an image, and its intrinsic pixel dimensions. -/
structure UploadedFile where
  size : Nat
  mimeType : String
  decodable : Bool
  imgWidth : Nat
  imgHeight : Nat
deriving Repr, DecidableEq

/-- `MAX_FILE_SIZE = 5 * 1024 * 1024` bytes. -/
def MAX_FILE_SIZE : Nat := 5 * 1024 * 1024

/-- `validTypes = ['image/png', 'image/jpeg', 'image/jpg']`. -/
def validTypes : List String := ["image/png", "image/jpeg", "image/jpg"]

/-- `handleSignatureUpload`: reject oversized files, then invalid MIME
types, then undecodable images, then images over 2000×2000 pixels —
each rejection returns with the state untouched and nothing sent.  A file
passing validation is posted to the asset store; on success the returned
path becomes the active `signatureImage`. -/
def handleSignatureUpload (st : ComponentState) (file : UploadedFile)
    (serverPath : Option String) :
    ComponentState × Option UploadError × List Request :=
  if MAX_FILE_SIZE < file.size then (st, some UploadError.FileTooLarge, [])
  else if file.mimeType ∉ validTypes then (st, some UploadError.InvalidImageType, [])
  else if file.decodable = false then (st, some UploadError.ImageLoadFailed, [])
  else if 2000 < file.imgWidth ∨ 2000 < file.imgHeight then
    (st, some UploadError.ImageTooLarge, [])
  else
    match serverPath with
    | none => (st, some UploadError.ServerUploadFailed, [Request.uploadReq])
    | some path =>
        ({ st with signatureImage := some path }, none, [Request.uploadReq])

/-! ### Concrete sample data for witnesses -/

def sampleTF : TextField :=
  { id := "t1", page_number := 1, x_coordinate := 10, y_coordinate := 20,
    width := 200, height := 30, font_size := 14, text_content := "Alice" }

def sampleSig : Signature :=
  { id := "s1", page_number := 1, x_coordinate := 5, y_coordinate := 6,
    width := 100, height := 50, signature_image_path := "sig.png",
    imageUrl := some "blob-1" }

def sampleState : ComponentState :=
  { isReadOnly := false, numPages := 3, pageNumber := 1, scale := 1,
    mode := Mode.none, textFields := [sampleTF], signatures := [sampleSig],
    activeField := some "t1", fullName := "Alice", signatureImage := none,
    pdfReady := true }

def roState : ComponentState := { sampleState with isReadOnly := true }

/-! ### Theorems -/

/-- C2: Read-only enforcement.  With `isReadOnly = true`, the drag,
resize, delete, draft-save and submit actions leave the component state
(in particular `textFields` and `signatures`) unchanged, and draft-save
and submit issue no network request (drag, resize and delete are pure in
the embedding and issue none by construction). -/
theorem C2_readonly_enforcement (st : ComponentState) (id : String)
    (dataX dataY sizeW sizeH : Coord) (t : FieldType) (documentId : Nat)
    (confirmed : Bool) (h : st.isReadOnly = true) :
    dragStopTextField st id dataX dataY = st ∧
    dragStopSignature st id dataX dataY = st ∧
    resizeTextField st id sizeW sizeH = st ∧
    resizeSignature st id sizeW sizeH = st ∧
    deleteAction st id t = st ∧
    saveDraftAction st documentId = (st, []) ∧
    submitAction st documentId confirmed = (st, []) := by
  simp [dragStopTextField, dragStopSignature, resizeTextField, resizeSignature,
    deleteAction, saveDraftAction, submitAction, h]

/-- Witness for C2 on a concrete read-only state. -/
theorem C2_readonly_enforcement_witness :
    roState.isReadOnly = true ∧
    (dragStopTextField roState "t1" 30 40 = roState ∧
     dragStopSignature roState "t1" 30 40 = roState ∧
     resizeTextField roState "t1" 100 50 = roState ∧
     resizeSignature roState "t1" 100 50 = roState ∧
     deleteAction roState "t1" FieldType.text = roState ∧
     saveDraftAction roState 7 = (roState, []) ∧
     submitAction roState 7 true = (roState, [])) :=
  ⟨rfl, C2_readonly_enforcement roState "t1" 30 40 100 50 FieldType.text 7 true rfl⟩

/-- C10: Frame property of update and delete.  Updating a text field
only touches the entries with the given id in `textFields` (merging the
listed fields and keeping every omitted field), leaves every other entry,
the order, the count and the whole `signatures` collection unchanged, and
is the identity when no id matches; symmetrically for signatures; delete
removes exactly the matching entries from its own collection and never
touches the other one. -/
theorem C10_update_delete_frame (st : ComponentState) (id : String)
    (u : TextFieldUpdates) (v : SignatureUpdates) :
    (updateTextField st id u).signatures = st.signatures ∧
    (updateSignature st id v).textFields = st.textFields ∧
    (updateTextField st id u).textFields.length = st.textFields.length ∧
    (updateSignature st id v).signatures.length = st.signatures.length ∧
    (∀ (i : Nat) (f : TextField), st.textFields[i]? = some f → f.id ≠ id →
      (updateTextField st id u).textFields[i]? = some f) ∧
    (∀ (i : Nat) (f : TextField), st.textFields[i]? = some f → f.id = id →
      (updateTextField st id u).textFields[i]? = some (u.apply f)) ∧
    (∀ f : TextField,
      (u.id = none → (u.apply f).id = f.id) ∧
      (u.page_number = none → (u.apply f).page_number = f.page_number) ∧
      (u.x_coordinate = none → (u.apply f).x_coordinate = f.x_coordinate) ∧
      (u.y_coordinate = none → (u.apply f).y_coordinate = f.y_coordinate) ∧
      (u.width = none → (u.apply f).width = f.width) ∧
      (u.height = none → (u.apply f).height = f.height) ∧
      (u.font_size = none → (u.apply f).font_size = f.font_size) ∧
      (u.text_content = none → (u.apply f).text_content = f.text_content)) ∧
    (∀ (i : Nat) (s : Signature), st.signatures[i]? = some s → s.id ≠ id →
      (updateSignature st id v).signatures[i]? = some s) ∧
    (∀ (i : Nat) (s : Signature), st.signatures[i]? = some s → s.id = id →
      (updateSignature st id v).signatures[i]? = some (v.apply s)) ∧
    (∀ s : Signature,
      (v.id = none → (v.apply s).id = s.id) ∧
      (v.page_number = none → (v.apply s).page_number = s.page_number) ∧
      (v.x_coordinate = none → (v.apply s).x_coordinate = s.x_coordinate) ∧
      (v.y_coordinate = none → (v.apply s).y_coordinate = s.y_coordinate) ∧
      (v.width = none → (v.apply s).width = s.width) ∧
      (v.height = none → (v.apply s).height = s.height) ∧
      (v.signature_image_path = none →
        (v.apply s).signature_image_path = s.signature_image_path) ∧
      (v.imageUrl = none → (v.apply s).imageUrl = s.imageUrl)) ∧
    ((∀ f ∈ st.textFields, f.id ≠ id) → updateTextField st id u = st) ∧
    ((∀ s ∈ st.signatures, s.id ≠ id) → updateSignature st id v = st) ∧
    (deleteField st id FieldType.text).signatures = st.signatures ∧
    (deleteField st id FieldType.signature).textFields = st.textFields ∧
    (∀ f : TextField, f ∈ (deleteField st id FieldType.text).textFields ↔
      f ∈ st.textFields ∧ f.id ≠ id) ∧
    (∀ s : Signature, s ∈ (deleteField st id FieldType.signature).signatures ↔
      s ∈ st.signatures ∧ s.id ≠ id) ∧
    (deleteField st id FieldType.text).textFields.Sublist st.textFields ∧
    (deleteField st id FieldType.signature).signatures.Sublist st.signatures := by
  refine ⟨rfl, rfl, by simp [updateTextField], by simp [updateSignature],
    ?_, ?_, ?_, ?_, ?_, ?_, ?_, ?_, rfl, rfl, ?_, ?_,
    List.filter_sublist _, List.filter_sublist _⟩
  · intro i f hf hne
    simp [updateTextField, List.getElem?_map, hf, hne]
  · intro i f hf heq
    simp [updateTextField, List.getElem?_map, hf, heq]
  · intro f
    refine ⟨?_, ?_, ?_, ?_, ?_, ?_, ?_, ?_⟩ <;>
      (intro h; simp [TextFieldUpdates.apply, h])
  · intro i s hs hne
    simp [updateSignature, List.getElem?_map, hs, hne]
  · intro i s hs heq
    simp [updateSignature, List.getElem?_map, hs, heq]
  · intro s
    refine ⟨?_, ?_, ?_, ?_, ?_, ?_, ?_, ?_⟩ <;>
      (intro h; simp [SignatureUpdates.apply, h])
  · intro hall
    have h2 : st.textFields.map (fun f => if f.id = id then u.apply f else f)
        = st.textFields.map (fun f => f) :=
      List.map_congr_left (fun f hf => by simp [hall f hf])
    have h3 : st.textFields.map (fun f => if f.id = id then u.apply f else f)
        = st.textFields := by simpa using h2
    simp [updateTextField, h3]
  · intro hall
    have h2 : st.signatures.map (fun s => if s.id = id then v.apply s else s)
        = st.signatures.map (fun s => s) :=
      List.map_congr_left (fun s hs => by simp [hall s hs])
    have h3 : st.signatures.map (fun s => if s.id = id then v.apply s else s)
        = st.signatures := by simpa using h2
    simp [updateSignature, h3]
  · intro f
    simp [deleteField, List.mem_filter]
  · intro s
    simp [deleteField, List.mem_filter]

def tfU : TextFieldUpdates :=
  ⟨none, none, some 99, none, none, none, none, none⟩

def sigU : SignatureUpdates :=
  ⟨none, none, some 98, none, none, none, none, none⟩

/-- Witness for C10 on concrete data: an update rewrites the matching
text field, leaves the signatures alone, and is the identity for an
absent id. -/
theorem C10_update_delete_frame_witness :
    (updateTextField sampleState "t1" tfU).signatures = sampleState.signatures ∧
    (updateTextField sampleState "t1" tfU).textFields[0]? = some (tfU.apply sampleTF) ∧
    updateTextField sampleState "zz" tfU = sampleState :=
  ⟨(C10_update_delete_frame sampleState "t1" tfU sigU).1,
   (C10_update_delete_frame sampleState "t1" tfU sigU).2.2.2.2.2.1 0 sampleTF rfl rfl,
   (C10_update_delete_frame sampleState "zz" tfU sigU).2.2.2.2.2.2.2.2.2.2.1
     (by decide)⟩

/-- C5: `saveDraft` idempotence and full serialization.  The request body
is a function of the annotation model alone (states agreeing on
`textFields` and `signatures` send the same body, so two calls with an
unchanged model store the same draft), every annotation is serialized in
order with all of its persisted fields, serialization is insensitive to
`id` and `imageUrl`, and the save does not change the state. -/
theorem C5_saveDraft_idempotent (st1 st2 : ComponentState) (documentId : Nat)
    (hTF : st1.textFields = st2.textFields)
    (hSig : st1.signatures = st2.signatures) :
    (handleSaveDraft st1 documentId).2 = (handleSaveDraft st2 documentId).2 ∧
    storeDraft (draftBody st1) = storeDraft (draftBody st2) ∧
    (draftBody st1).textFields.length = st1.textFields.length ∧
    (draftBody st1).signatures.length = st1.signatures.length ∧
    (∀ (i : Nat) (tf : TextField), st1.textFields[i]? = some tf →
      (draftBody st1).textFields[i]? = some (serializeTextField tf)) ∧
    (∀ (i : Nat) (s : Signature), st1.signatures[i]? = some s →
      (draftBody st1).signatures[i]? = some (serializeSignature s)) ∧
    (∀ (tf : TextField) (newId : String),
      serializeTextField { tf with id := newId } = serializeTextField tf) ∧
    (∀ (s : Signature) (newId : String) (newUrl : Option String),
      serializeSignature { s with id := newId, imageUrl := newUrl }
        = serializeSignature s) ∧
    (handleSaveDraft st1 documentId).1 = st1 := by
  refine ⟨?_, ?_, by simp [draftBody], by simp [draftBody], ?_, ?_, ?_, ?_, rfl⟩
  · simp [handleSaveDraft, draftBody, hTF, hSig]
  · simp [storeDraft, draftBody, hTF, hSig]
  · intro i tf h
    simp [draftBody, List.getElem?_map, h]
  · intro i s h
    simp [draftBody, List.getElem?_map, h]
  · intro tf newId
    simp [serializeTextField]
  · intro s newId newUrl
    simp [serializeSignature]

/-- The sample state after some model-preserving UI churn: a different
mode, zoom level and selection but the same annotations. -/
def sampleState2 : ComponentState :=
  { sampleState with mode := Mode.text, scale := 2, activeField := none }

/-- Witness for C5: two states with the same annotation model but
different mode, scale and active field send the same draft body. -/
theorem C5_saveDraft_idempotent_witness :
    sampleState.textFields = sampleState2.textFields ∧
    (handleSaveDraft sampleState 7).2 = (handleSaveDraft sampleState2 7).2 :=
  ⟨rfl, (C5_saveDraft_idempotent sampleState sampleState2 7 rfl rfl).1⟩

/-- C9: Text auto-grow.  After a content change of a text field to a
string `s`, every field with the edited id has width
`max 200 (s.length * 8)`, computed from the length of the new string
alone — whatever its width was before, so the result is independent of
any manual resize. -/
theorem C9_text_autogrow (st : ComponentState) (id : String) (s : String) :
    ∀ f ∈ (onTextContentChange st id s).textFields, f.id = id →
      f.width = max DEFAULT_TEXT_WIDTH (s.length * 8) := by
  intro f hf hfid
  simp only [onTextContentChange, List.mem_map] at hf
  obtain ⟨g, hg, rfl⟩ := hf
  by_cases h : g.id = id
  · simp [h, TextFieldUpdates.apply]
  · simp [h, TextFieldUpdates.apply] at hfid

/-- The sample field after an edit to a 30-character string: the width
has grown to `30 * 8 = 240`, while the content still reads `"Alice"` —
the handler's second queued state overwrites the content update. -/
def tfAfterEdit : TextField :=
  { id := "t1", page_number := 1, x_coordinate := 10, y_coordinate := 20,
    width := 240, height := 30, font_size := 14, text_content := "Alice" }

/-- Witness for C9: after an edit of the sample field to a 30-character
string, the resulting field has width `max 200 (30 * 8) = 240`. -/
theorem C9_text_autogrow_witness :
    tfAfterEdit ∈ (onTextContentChange sampleState "t1"
      "abcdefghijklmnopqrstuvwxyz1234").textFields ∧
    tfAfterEdit.width
      = max DEFAULT_TEXT_WIDTH
          ((("abcdefghijklmnopqrstuvwxyz1234" : String).length : Coord) * 8) := by
  have hlen : ("abcdefghijklmnopqrstuvwxyz1234" : String).length = 30 := rfl
  have hmem : tfAfterEdit ∈ (onTextContentChange sampleState "t1"
      "abcdefghijklmnopqrstuvwxyz1234").textFields := by
    simp [onTextContentChange, sampleState, sampleTF,
      TextFieldUpdates.apply, tfAfterEdit, DEFAULT_TEXT_WIDTH, hlen]
    norm_num
  exact ⟨hmem, C9_text_autogrow sampleState "t1"
    "abcdefghijklmnopqrstuvwxyz1234" tfAfterEdit hmem rfl⟩

/-- A click is ignored whenever the guard of `handlePageClick` fires. -/
lemma handlePageClick_ignored (st : ComponentState) (env : SigEnv)
    (pageNum : Nat) (vx vy : Coord) (newId : String)
    (h : st.isReadOnly = true ∨ st.mode = Mode.none ∨ st.pdfReady = false) :
    handlePageClick st env pageNum vx vy newId = (st, none) := by
  rcases h with h | h | h <;> simp [handlePageClick, h]

/-- C8: Page-click contract for text placement.  A click is ignored when
read-only, in mode `none`, or before the PDF is ready; in mode `text` it
appends a TextField at the document-space point with default size
`(200, 30)`, font size `14` and content equal to the current full-name
input, selects it, resets the mode to `none`, and an immediately
following click places nothing. -/
theorem C8_page_click_text (st : ComponentState) (env env2 : SigEnv)
    (pageNum pageNum2 : Nat) (vx vy vx2 vy2 : Coord) (newId newId2 : String) :
    (st.isReadOnly = true ∨ st.mode = Mode.none ∨ st.pdfReady = false →
      handlePageClick st env pageNum vx vy newId = (st, none)) ∧
    (st.isReadOnly = false → st.pdfReady = true → st.mode = Mode.text →
      (handlePageClick st env pageNum vx vy newId).1.textFields
          = st.textFields ++
            [{ id := newId, page_number := pageNum,
               x_coordinate := vx / st.scale, y_coordinate := vy / st.scale,
               width := 200, height := 30, font_size := 14,
               text_content := st.fullName }] ∧
      (handlePageClick st env pageNum vx vy newId).1.signatures
          = st.signatures ∧
      (handlePageClick st env pageNum vx vy newId).1.activeField = some newId ∧
      (handlePageClick st env pageNum vx vy newId).1.mode = Mode.none ∧
      handlePageClick (handlePageClick st env pageNum vx vy newId).1 env2
          pageNum2 vx2 vy2 newId2
        = ((handlePageClick st env pageNum vx vy newId).1, none)) := by
  constructor
  · exact handlePageClick_ignored st env pageNum vx vy newId
  · intro hro hready hmode
    have hfirst : (handlePageClick st env pageNum vx vy newId).1
        = addTextField st pageNum (vx / st.scale) (vy / st.scale) newId := by
      simp [handlePageClick, hro, hready, hmode]
    refine ⟨?_, ?_, ?_, ?_, ?_⟩
    · simp [hfirst, addTextField, DEFAULT_TEXT_WIDTH, DEFAULT_TEXT_HEIGHT,
        DEFAULT_TEXT_FONT_SIZE]
    · simp [hfirst, addTextField]
    · simp [hfirst, addTextField]
    · simp [hfirst, addTextField]
    · have hmode2 : (handlePageClick st env pageNum vx vy newId).1.mode
          = Mode.none := by simp [hfirst, addTextField]
      exact handlePageClick_ignored _ env2 pageNum2 vx2 vy2 newId2
        (Or.inr (Or.inl hmode2))

/-- Witness for C8: a concrete text-mode click on page 2 of the sample
state, followed by a second click that places nothing. -/
theorem C8_page_click_text_witness :
    ({ sampleState with mode := Mode.text } : ComponentState).isReadOnly
        = false ∧
    (handlePageClick { sampleState with mode := Mode.text }
        ⟨[], none, "u", none⟩ 2 120 60 "t2").1.textFields
      = ({ sampleState with mode := Mode.text } : ComponentState).textFields ++
        [{ id := "t2", page_number := 2, x_coordinate := 120 / sampleState.scale,
           y_coordinate := 60 / sampleState.scale, width := 200, height := 30,
           font_size := 14, text_content := sampleState.fullName }] := by
  refine ⟨rfl, ?_⟩
  exact ((C8_page_click_text { sampleState with mode := Mode.text }
    ⟨[], none, "u", none⟩ ⟨[], none, "u", none⟩ 2 1 120 60 0 0 "t2" "t3").2
    rfl rfl rfl).1

/-- The canvas-content test is false on a canvas whose alpha bytes are
all zero, for any starting index. -/
lemma alphaContent_eq_false (data : List Nat) : ∀ (i : Nat),
    (∀ (j : Nat) (hj : j < data.length), (i + j) % 4 = 3 →
      data.get ⟨j, hj⟩ = 0) →
    alphaContent i data = false := by
  induction data with
  | nil => intro i _; rfl
  | cons p rest ih =>
    intro i h
    have hp : (i % 4 == 3 && decide (0 < p)) = false := by
      by_cases hi : i % 4 = 3
      · have h0 : p = 0 := by
          have := h 0 (by simp) (by simpa using hi)
          simpa using this
        simp [h0]
      · simp [hi]
    have hrest : alphaContent (i + 1) rest = false := by
      apply ih
      intro j hj hmod
      have := h (j + 1) (by simpa using Nat.succ_lt_succ hj)
        (by omega)
      simpa using this
    simp [alphaContent, hp, hrest]

/-- C4: Signature placement without an artifact fails.  A signature-mode
click with no uploaded signature path and no non-transparent pixel on
the drawing canvas reports `NoSignatureArtifact`, appends nothing, and
leaves the whole state — in particular the mode, which stays
`signature` — unchanged. -/
theorem C4_no_artifact_click (st : ComponentState) (env : SigEnv)
    (pageNum : Nat) (vx vy : Coord) (newId : String)
    (hro : st.isReadOnly = false) (hready : st.pdfReady = true)
    (hmode : st.mode = Mode.signature)
    (hupload : st.signatureImage = none)
    (hcanvas : ∀ (j : Nat) (hj : j < env.canvasData.length), j % 4 = 3 →
      env.canvasData.get ⟨j, hj⟩ = 0) :
    handlePageClick st env pageNum vx vy newId
        = (st, some SigError.NoSignatureArtifact) ∧
    (handlePageClick st env pageNum vx vy newId).1.signatures
        = st.signatures ∧
    (handlePageClick st env pageNum vx vy newId).1.mode = Mode.signature := by
  have hcc : canvasHasContent env.canvasData = false := by
    apply alphaContent_eq_false
    intro j hj hmod
    exact hcanvas j hj (by simpa using hmod)
  have hmain : handlePageClick st env pageNum vx vy newId
      = (st, some SigError.NoSignatureArtifact) := by
    simp [handlePageClick, hro, hready, hmode, addSignature, hupload, hcc]
  exact ⟨hmain, by simp [hmain], by simp [hmain, hmode]⟩

/-- Witness for C4: a signature-mode click on the sample state with an
all-transparent 2×2 canvas and nothing uploaded fails and changes
nothing. -/
theorem C4_no_artifact_click_witness :
    handlePageClick { sampleState with mode := Mode.signature }
        ⟨[0, 0, 0, 0, 0, 0, 0, 0], none, "u", none⟩ 1 40 50 "s9"
      = ({ sampleState with mode := Mode.signature },
         some SigError.NoSignatureArtifact) :=
  (C4_no_artifact_click { sampleState with mode := Mode.signature }
    ⟨[0, 0, 0, 0, 0, 0, 0, 0], none, "u", none⟩ 1 40 50 "s9"
    rfl rfl rfl rfl (by decide)).1

/-- C7 counterexample: a 6 MB file with MIME type `text/plain` violates
both the type rule and the size rule; the code rejects it with
`FileTooLarge`, not `InvalidImageType` as the claim's type clause
requires, because size is validated before MIME type. -/
theorem C7_upload_validation_counterexample :
    (handleSignatureUpload sampleState
        ⟨6 * 1024 * 1024, "text/plain", true, 100, 100⟩ (some "p")).2.1
      = some UploadError.FileTooLarge ∧
    some UploadError.FileTooLarge ≠ some UploadError.InvalidImageType := by
  constructor
  · decide
  · decide

/-- C7 amended: validation proceeds size → MIME type → decodability →
pixel dimensions.  A file above 5 MB fails with `FileTooLarge`; within
the size limit, a MIME type other than png/jpeg (the nonstandard
`image/jpg` included as an accepted alias) fails with
`InvalidImageType`; a valid-size valid-type decodable image above
2000×2000 fails with `ImageTooLarge`.  Every failure leaves the state
unchanged (in particular the active signature source), and failures
before the upload step issue no request; on passing validation the
returned path becomes the active signature source. -/
theorem C7_upload_validation_amended (st : ComponentState)
    (file : UploadedFile) (serverPath : Option String) :
    (MAX_FILE_SIZE < file.size →
      handleSignatureUpload st file serverPath
        = (st, some UploadError.FileTooLarge, [])) ∧
    (file.size ≤ MAX_FILE_SIZE → file.mimeType ∉ validTypes →
      handleSignatureUpload st file serverPath
        = (st, some UploadError.InvalidImageType, [])) ∧
    (file.size ≤ MAX_FILE_SIZE → file.mimeType ∈ validTypes →
      file.decodable = true →
      2000 < file.imgWidth ∨ 2000 < file.imgHeight →
      handleSignatureUpload st file serverPath
        = (st, some UploadError.ImageTooLarge, [])) ∧
    (∀ e : UploadError,
      (handleSignatureUpload st file serverPath).2.1 = some e →
      (handleSignatureUpload st file serverPath).1 = st) ∧
    (∀ path : String, file.size ≤ MAX_FILE_SIZE → file.mimeType ∈ validTypes →
      file.decodable = true →
      file.imgWidth ≤ 2000 → file.imgHeight ≤ 2000 →
      serverPath = some path →
      handleSignatureUpload st file serverPath
        = ({ st with signatureImage := some path }, none,
           [Request.uploadReq])) := by
  refine ⟨?_, ?_, ?_, ?_, ?_⟩
  · intro h
    simp [handleSignatureUpload, h]
  · intro hsz hty
    simp [handleSignatureUpload, Nat.not_lt.mpr hsz, hty]
  · intro hsz hty hdec hdim
    simp [handleSignatureUpload, Nat.not_lt.mpr hsz, hty, hdec, hdim]
  · intro e he
    simp only [handleSignatureUpload] at he ⊢
    split_ifs at he ⊢ <;> try rfl
    cases serverPath <;> simp_all
  · intro path hsz hty hdec hw hh hpath
    simp [handleSignatureUpload, Nat.not_lt.mpr hsz, hty, hdec,
      Nat.not_lt.mpr hw, Nat.not_lt.mpr hh, hpath]

/-- Witness for C7's amended theorem: an in-size-limit `text/plain` file
is rejected with `InvalidImageType` and the state is unchanged. -/
theorem C7_upload_validation_amended_witness :
    (100 ≤ MAX_FILE_SIZE ∧ ("text/plain" : String) ∉ validTypes) ∧
    handleSignatureUpload sampleState ⟨100, "text/plain", true, 10, 10⟩
        (some "p")
      = (sampleState, some UploadError.InvalidImageType, []) :=
  ⟨⟨by decide, by decide⟩,
   (C7_upload_validation_amended sampleState ⟨100, "text/plain", true, 10, 10⟩
     (some "p")).2.1 (by decide) (by decide)⟩

/-- C3 counterexample: resizing a 250×30 signature (reachable via
placement of a wide artifact) with reported size 250×100 — inside the
`minConstraints`/`maxConstraints` box at scale 1 — recomputes the width
as `100 * (250/30) = 2500/3 > 250`, so the resized dimensions do not stay
within `[80,250] × [30,100]` as the claim states. -/
theorem C3_aspect_lock_counterexample :
    (signatureResize
        ⟨"s1", 1, 0, 0, 250, 30, "p.png", none⟩ 1 250 100).1 = 2500 / 3 ∧
    ¬ ((signatureResize
        ⟨"s1", 1, 0, 0, 250, 30, "p.png", none⟩ 1 250 100).1
      ≤ MAX_SIGNATURE_WIDTH) := by
  norm_num [signatureResize, MAX_SIGNATURE_WIDTH]

/-- C3 amended: the aspect-lock invariant holds — the width/height ratio
after a signature resize equals the ratio before it, the dimension with
the larger absolute change being taken as given and the other recomputed
from the prior ratio.  Of the bounds, only the given dimension is
guaranteed: when the handle's reported size respects the viewport-scaled
`minConstraints`/`maxConstraints`, the primary dimension lies in its
clamp interval, but the recomputed dimension is not re-clamped and can
leave `[80,250] × [30,100]`. -/
theorem C3_aspect_lock_amended (sig : Signature) (scale sizeW sizeH : Coord)
    (hs : 0 < scale)
    (h1 : MIN_SIGNATURE_WIDTH * scale ≤ sizeW)
    (h2 : sizeW ≤ MAX_SIGNATURE_WIDTH * scale)
    (h3 : MIN_SIGNATURE_HEIGHT * scale ≤ sizeH)
    (h4 : sizeH ≤ MAX_SIGNATURE_HEIGHT * scale) :
    (signatureResize sig scale sizeW sizeH).1 /
        (signatureResize sig scale sizeW sizeH).2 = sig.width / sig.height ∧
    ((MIN_SIGNATURE_WIDTH ≤ (signatureResize sig scale sizeW sizeH).1 ∧
      (signatureResize sig scale sizeW sizeH).1 ≤ MAX_SIGNATURE_WIDTH) ∨
     (MIN_SIGNATURE_HEIGHT ≤ (signatureResize sig scale sizeW sizeH).2 ∧
      (signatureResize sig scale sizeW sizeH).2 ≤ MAX_SIGNATURE_HEIGHT)) := by
  simp only [MIN_SIGNATURE_WIDTH, MAX_SIGNATURE_WIDTH, MIN_SIGNATURE_HEIGHT,
    MAX_SIGNATURE_HEIGHT] at h1 h2 h3 h4 ⊢
  have hnw1 : (80 : ℚ) ≤ sizeW / scale := (le_div_iff₀ hs).mpr (by linarith)
  have hnw2 : sizeW / scale ≤ 250 := (div_le_iff₀ hs).mpr (by linarith)
  have hnh1 : (30 : ℚ) ≤ sizeH / scale := (le_div_iff₀ hs).mpr (by linarith)
  have hnh2 : sizeH / scale ≤ 100 := (div_le_iff₀ hs).mpr (by linarith)
  have hnw0 : sizeW / scale ≠ 0 := by
    intro h0
    rw [h0] at hnw1
    norm_num at hnw1
  have hnh0 : sizeH / scale ≠ 0 := by
    intro h0
    rw [h0] at hnh1
    norm_num at hnh1
  simp only [signatureResize]
  split_ifs with hc
  · refine ⟨?_, Or.inl ⟨hnw1, hnw2⟩⟩
    rw [div_div_eq_mul_div, mul_comm, mul_div_assoc, div_self hnw0, mul_one]
  · refine ⟨?_, Or.inr ⟨hnh1, hnh2⟩⟩
    rw [mul_comm, mul_div_assoc, div_self hnh0, mul_one]

/-- Witness for C3's amended theorem on the sample 100×50 signature at
scale 1 with reported size 200×40. -/
theorem C3_aspect_lock_amended_witness :
    ((0 : Coord) < 1 ∧ MIN_SIGNATURE_WIDTH * 1 ≤ (200 : Coord) ∧
      (200 : Coord) ≤ MAX_SIGNATURE_WIDTH * 1 ∧
      MIN_SIGNATURE_HEIGHT * 1 ≤ (40 : Coord) ∧
      (40 : Coord) ≤ MAX_SIGNATURE_HEIGHT * 1) ∧
    ((signatureResize sampleSig 1 200 40).1 /
        (signatureResize sampleSig 1 200 40).2
      = sampleSig.width / sampleSig.height ∧
    ((MIN_SIGNATURE_WIDTH ≤ (signatureResize sampleSig 1 200 40).1 ∧
      (signatureResize sampleSig 1 200 40).1 ≤ MAX_SIGNATURE_WIDTH) ∨
     (MIN_SIGNATURE_HEIGHT ≤ (signatureResize sampleSig 1 200 40).2 ∧
      (signatureResize sampleSig 1 200 40).2 ≤ MAX_SIGNATURE_HEIGHT))) :=
  ⟨⟨by norm_num, by norm_num [MIN_SIGNATURE_WIDTH],
    by norm_num [MAX_SIGNATURE_WIDTH], by norm_num [MIN_SIGNATURE_HEIGHT],
    by norm_num [MAX_SIGNATURE_HEIGHT]⟩,
   C3_aspect_lock_amended sampleSig 1 200 40 (by norm_num)
     (by norm_num [MIN_SIGNATURE_WIDTH]) (by norm_num [MAX_SIGNATURE_WIDTH])
     (by norm_num [MIN_SIGNATURE_HEIGHT]) (by norm_num [MAX_SIGNATURE_HEIGHT])⟩

/-- Width-space characterization of the clamp chain in
`getImageDimensions`: every intermediate pair has the intrinsic ratio
`r`, so the chain is determined by the width alone, which ends at
`max (max (min (min w 250) (100r)) 80) (30r)` — the later minimum clamps
override the earlier maximum clamps. -/
def autoWidth (w r : Coord) : Coord :=
  max (max (min (min w MAX_SIGNATURE_WIDTH) (MAX_SIGNATURE_HEIGHT * r))
    MIN_SIGNATURE_WIDTH) (MIN_SIGNATURE_HEIGHT * r)

lemma autoSize_eq_autoWidth (w h : Coord) (hw : 0 < w) (hh : 0 < h) :
    autoSize w h = (autoWidth w (w / h), autoWidth w (w / h) / (w / h)) := by
  have hr : 0 < w / h := div_pos hw hh
  have hr0 : w / h ≠ 0 := ne_of_gt hr
  have hwh : w / (w / h) = h := by field_simp
  have hhw : h * (w / h) = w := by field_simp
  simp only [autoSize, autoWidth, MAX_SIGNATURE_WIDTH, MAX_SIGNATURE_HEIGHT,
    MIN_SIGNATURE_WIDTH, MIN_SIGNATURE_HEIGHT]
  by_cases c1 : (250:ℚ) < w
  · rw [if_pos c1]
    dsimp only
    by_cases c2 : (100:ℚ) < 250 / (w / h)
    · rw [if_pos c2]
      dsimp only
      have hc2 : (100:ℚ) * (w / h) < 250 := (lt_div_iff₀ hr).mp c2
      by_cases c3 : (100:ℚ) * (w / h) < 80
      · rw [if_pos c3]
        dsimp only
        by_cases c4 : (80:ℚ) / (w / h) < 30
        · rw [if_pos c4]
          have hc4 : (80:ℚ) < 30 * (w / h) := (div_lt_iff₀ hr).mp c4
          rw [min_eq_right c1.le, min_eq_right hc2.le, max_eq_right c3.le,
            max_eq_right hc4.le, mul_div_assoc, div_self hr0, mul_one]
        · rw [if_neg c4]
          have hc4 : (30:ℚ) * (w / h) ≤ 80 := (le_div_iff₀ hr).mp (not_lt.mp c4)
          rw [min_eq_right c1.le, min_eq_right hc2.le, max_eq_right c3.le,
            max_eq_left hc4]
      · rw [if_neg c3]
        dsimp only
        by_cases c4 : (100:ℚ) < 30
        · exact absurd c4 (by norm_num)
        · rw [if_neg c4]
          have h80 : (80:ℚ) ≤ 100 * (w / h) := not_lt.mp c3
          have h30 : (30:ℚ) * (w / h) ≤ 100 * (w / h) :=
            mul_le_mul_of_nonneg_right (by norm_num) hr.le
          rw [min_eq_right c1.le, min_eq_right hc2.le, max_eq_left h80,
            max_eq_left h30, mul_div_assoc, div_self hr0, mul_one]
    · rw [if_neg c2]
      dsimp only
      have hc2 : (250:ℚ) ≤ 100 * (w / h) := (div_le_iff₀ hr).mp (not_lt.mp c2)
      by_cases c3 : (250:ℚ) < 80
      · exact absurd c3 (by norm_num)
      · rw [if_neg c3]
        dsimp only
        by_cases c4 : (250:ℚ) / (w / h) < 30
        · rw [if_pos c4]
          have hc4 : (250:ℚ) < 30 * (w / h) := (div_lt_iff₀ hr).mp c4
          rw [min_eq_right c1.le, min_eq_left hc2,
            max_eq_left (show (80:ℚ) ≤ 250 by norm_num),
            max_eq_right hc4.le, mul_div_assoc, div_self hr0, mul_one]
        · rw [if_neg c4]
          have hc4 : (30:ℚ) * (w / h) ≤ 250 := (le_div_iff₀ hr).mp (not_lt.mp c4)
          rw [min_eq_right c1.le, min_eq_left hc2,
            max_eq_left (show (80:ℚ) ≤ 250 by norm_num), max_eq_left hc4]
  · rw [if_neg c1]
    dsimp only
    have hwle : w ≤ 250 := not_lt.mp c1
    by_cases c2 : (100:ℚ) < h
    · rw [if_pos c2]
      dsimp only
      have hc2 : (100:ℚ) * (w / h) < w := by
        have := mul_lt_mul_of_pos_right c2 hr
        rwa [hhw] at this
      by_cases c3 : (100:ℚ) * (w / h) < 80
      · rw [if_pos c3]
        dsimp only
        by_cases c4 : (80:ℚ) / (w / h) < 30
        · rw [if_pos c4]
          have hc4 : (80:ℚ) < 30 * (w / h) := (div_lt_iff₀ hr).mp c4
          rw [min_eq_left hwle, min_eq_right hc2.le, max_eq_right c3.le,
            max_eq_right hc4.le, mul_div_assoc, div_self hr0, mul_one]
        · rw [if_neg c4]
          have hc4 : (30:ℚ) * (w / h) ≤ 80 := (le_div_iff₀ hr).mp (not_lt.mp c4)
          rw [min_eq_left hwle, min_eq_right hc2.le, max_eq_right c3.le,
            max_eq_left hc4]
      · rw [if_neg c3]
        dsimp only
        by_cases c4 : (100:ℚ) < 30
        · exact absurd c4 (by norm_num)
        · rw [if_neg c4]
          have h80 : (80:ℚ) ≤ 100 * (w / h) := not_lt.mp c3
          have h30 : (30:ℚ) * (w / h) ≤ 100 * (w / h) :=
            mul_le_mul_of_nonneg_right (by norm_num) hr.le
          rw [min_eq_left hwle, min_eq_right hc2.le, max_eq_left h80,
            max_eq_left h30, mul_div_assoc, div_self hr0, mul_one]
    · rw [if_neg c2]
      dsimp only
      have hc2 : w ≤ 100 * (w / h) := by
        have := mul_le_mul_of_nonneg_right (not_lt.mp c2) hr.le
        rwa [hhw] at this
      by_cases c3 : w < 80
      · rw [if_pos c3]
        dsimp only
        by_cases c4 : (80:ℚ) / (w / h) < 30
        · rw [if_pos c4]
          have hc4 : (80:ℚ) < 30 * (w / h) := (div_lt_iff₀ hr).mp c4
          rw [min_eq_left hwle, min_eq_left hc2, max_eq_right c3.le,
            max_eq_right hc4.le, mul_div_assoc, div_self hr0, mul_one]
        · rw [if_neg c4]
          have hc4 : (30:ℚ) * (w / h) ≤ 80 := (le_div_iff₀ hr).mp (not_lt.mp c4)
          rw [min_eq_left hwle, min_eq_left hc2, max_eq_right c3.le,
            max_eq_left hc4]
      · rw [if_neg c3]
        dsimp only
        have h80 : (80:ℚ) ≤ w := not_lt.mp c3
        by_cases c4 : h < 30
        · rw [if_pos c4]
          have hc4 : w < 30 * (w / h) := by
            have := mul_lt_mul_of_pos_right c4 hr
            rwa [hhw] at this
          rw [min_eq_left hwle, min_eq_left hc2, max_eq_left h80,
            max_eq_right hc4.le, mul_div_assoc, div_self hr0, mul_one]
        · rw [if_neg c4]
          have hc4 : (30:ℚ) * (w / h) ≤ w := by
            have := mul_le_mul_of_nonneg_right (not_lt.mp c4) hr.le
            rwa [hhw] at this
          rw [min_eq_left hwle, min_eq_left hc2, max_eq_left h80,
            max_eq_left hc4, hwh]

/-- C6 counterexample: a 2500×30 artifact (aspect ratio 250/3) is first
clamped to width 250 / height 3, then the minimum-height clamp scales it
back up to 2500×30, so the placed width 2500 exceeds the maximum 250 —
the claimed `[80,250] × [30,100]` clamp does not hold in general. -/
theorem C6_auto_sizing_counterexample :
    autoSize 2500 30 = (2500, 30) ∧
    ¬ ((autoSize 2500 30).1 ≤ MAX_SIGNATURE_WIDTH) := by
  norm_num [autoSize, MAX_SIGNATURE_WIDTH, MAX_SIGNATURE_HEIGHT,
    MIN_SIGNATURE_WIDTH, MIN_SIGNATURE_HEIGHT]

/-- C6 amended: placement sizing always preserves the artifact's
intrinsic aspect ratio and always meets both minimums (the minimum
clamps are applied last); the maximums hold exactly when the intrinsic
aspect ratio lies between `80/100` and `250/30` — outside that band the
later minimum clamp overrides a maximum and one dimension exceeds its
bound. -/
theorem C6_auto_sizing_amended (w h : Coord) (hw : 0 < w) (hh : 0 < h) :
    (autoSize w h).1 / (autoSize w h).2 = w / h ∧
    MIN_SIGNATURE_WIDTH ≤ (autoSize w h).1 ∧
    MIN_SIGNATURE_HEIGHT ≤ (autoSize w h).2 ∧
    (MIN_SIGNATURE_WIDTH / MAX_SIGNATURE_HEIGHT ≤ w / h →
      w / h ≤ MAX_SIGNATURE_WIDTH / MIN_SIGNATURE_HEIGHT →
      (autoSize w h).1 ≤ MAX_SIGNATURE_WIDTH ∧
      (autoSize w h).2 ≤ MAX_SIGNATURE_HEIGHT) := by
  have hr : 0 < w / h := div_pos hw hh
  have hr0 : w / h ≠ 0 := ne_of_gt hr
  rw [autoSize_eq_autoWidth w h hw hh]
  simp only [MAX_SIGNATURE_WIDTH, MAX_SIGNATURE_HEIGHT,
    MIN_SIGNATURE_WIDTH, MIN_SIGNATURE_HEIGHT]
  have hA80 : (80:ℚ) ≤ autoWidth w (w / h) :=
    le_trans (le_max_right _ _) (le_max_left _ _)
  have hA0 : autoWidth w (w / h) ≠ 0 := by
    intro h0
    rw [h0] at hA80
    norm_num at hA80
  have hA30r : 30 * (w / h) ≤ autoWidth w (w / h) := le_max_right _ _
  have hAdef : autoWidth w (w / h)
      = max (max (min (min w 250) (100 * (w / h))) 80) (30 * (w / h)) := by
    simp only [autoWidth, MAX_SIGNATURE_WIDTH, MAX_SIGNATURE_HEIGHT,
      MIN_SIGNATURE_WIDTH, MIN_SIGNATURE_HEIGHT]
  refine ⟨?_, by simpa [autoWidth] using hA80, ?_, ?_⟩
  · rw [div_div_eq_mul_div, mul_comm, mul_div_assoc, div_self hA0, mul_one]
  · rw [le_div_iff₀ hr]
    have := hA30r
    rw [hAdef] at this ⊢
    linarith
  · intro hlo hhi
    norm_num at hlo hhi
    rw [hAdef]
    constructor
    · apply max_le (max_le ?_ (by norm_num)) (by linarith)
      exact le_trans (min_le_left _ _) (min_le_right w 250)
    · rw [div_le_iff₀ hr]
      apply max_le (max_le ?_ (by linarith)) (by linarith)
      exact min_le_right _ _

/-- Witness for C6's amended theorem: a 300×150 artifact (ratio 2, inside
the feasible band) is placed at 200×100, ratio preserved and within the
clamp. -/
theorem C6_auto_sizing_amended_witness :
    ((0:ℚ) < 300 ∧ (0:ℚ) < 150 ∧
      MIN_SIGNATURE_WIDTH / MAX_SIGNATURE_HEIGHT ≤ (300:ℚ) / 150 ∧
      (300:ℚ) / 150 ≤ MAX_SIGNATURE_WIDTH / MIN_SIGNATURE_HEIGHT) ∧
    (autoSize 300 150).1 / (autoSize 300 150).2 = (300:ℚ) / 150 ∧
    MIN_SIGNATURE_WIDTH ≤ (autoSize 300 150).1 ∧
    MIN_SIGNATURE_HEIGHT ≤ (autoSize 300 150).2 ∧
    ((autoSize 300 150).1 ≤ MAX_SIGNATURE_WIDTH ∧
     (autoSize 300 150).2 ≤ MAX_SIGNATURE_HEIGHT) :=
  ⟨⟨by norm_num, by norm_num,
    by norm_num [MIN_SIGNATURE_WIDTH, MAX_SIGNATURE_HEIGHT],
    by norm_num [MAX_SIGNATURE_WIDTH, MIN_SIGNATURE_HEIGHT]⟩,
   (C6_auto_sizing_amended 300 150 (by norm_num) (by norm_num)).1,
   (C6_auto_sizing_amended 300 150 (by norm_num) (by norm_num)).2.1,
   (C6_auto_sizing_amended 300 150 (by norm_num) (by norm_num)).2.2.1,
   (C6_auto_sizing_amended 300 150 (by norm_num) (by norm_num)).2.2.2
     (by norm_num [MIN_SIGNATURE_WIDTH, MAX_SIGNATURE_HEIGHT])
     (by norm_num [MAX_SIGNATURE_WIDTH, MIN_SIGNATURE_HEIGHT])⟩

end FrontedSign
